import Mathlib

/-!
Verification of the logging utility of the ColdRec repository
(source file: src/util/logger.py).

The module is embedded shallowly: the Python module-level mutable state
(the guard flag, the installed excepthook, the logging framework's global
disable level and the active configuration) becomes an explicit state
record, and observable side effects (directory creation, configuration
activation, console and stderr output) become an explicit effect trace.
Environmental nondeterminism (the wall-clock timestamp and whether the
filesystem or the configuration activation raises) is an explicit
environment parameter.  Python exceptions inside the try block are
modelled by a PyResult value that the wrapping function catches.
-/

namespace ColdRecLogger

/-- Python logging severity constants from the standard logging module. -/
def NOTSET : Nat := 0

/-- Severity constant logging.DEBUG. -/
def DEBUG : Nat := 10

/-- Severity constant logging.INFO. -/
def INFO : Nat := 20

/-- Severity constant logging.WARNING. -/
def WARNING : Nat := 30

/-- Severity constant logging.ERROR. -/
def ERROR : Nat := 40

/-- Severity constant logging.CRITICAL. -/
def CRITICAL : Nat := 50

/-- Model of logging.getLevelName applied to an integer level: the name of
a standard level, otherwise the string "Level n". -/
def getLevelName (n : Nat) : String :=
  if n = CRITICAL then "CRITICAL"
  else if n = ERROR then "ERROR"
  else if n = WARNING then "WARNING"
  else if n = INFO then "INFO"
  else if n = DEBUG then "DEBUG"
  else if n = NOTSET then "NOTSET"
  else "Level " ++ toString n

/-- Model of os.path.join for a relative second component (the only way the
source calls it): the components joined by the separator. -/
def joinPath (a b : String) : String := a ++ "/" ++ b

/-- The mutable content of the module-level LOGGING_CONFIG dictionary:
one field per leaf entry that the source reads or writes. -/
structure LoggingConfig where
  version : Nat
  disableExistingLoggers : Bool
  consoleLevel : String
  consoleRichTracebacks : Bool
  consoleMarkup : Bool
  consoleShowPath : Bool
  fileLevel : String
  fileFilename : String
  fileMode : String
  fileEncoding : String
  fileFormatter : String
  fileFilters : List String
  rootLevel : String
  rootHandlers : List String
  deriving DecidableEq, Repr

/-- The module-level configuration template LOGGING_CONFIG of logger.py. -/
def LOGGING_CONFIG : LoggingConfig :=
  { version := 1,
    disableExistingLoggers := false,
    consoleLevel := "INFO",
    consoleRichTracebacks := true,
    consoleMarkup := true,
    consoleShowPath := false,
    fileLevel := "INFO",
    fileFilename := "result.log",
    fileMode := "a",
    fileEncoding := "utf-8",
    fileFormatter := "plain_text",
    fileFilters := ["remove_markup"],
    rootLevel := "DEBUG",
    rootHandlers := ["console", "file"] }

/-- Which process-wide excepthook is installed (sys.excepthook). -/
inductive Excepthook where
  | defaultHook
  | handleException
  deriving DecidableEq, Repr

/-- The process-wide mutable state the module touches: the guard flag
_logger_initialized, the module-level template, the logging framework's
global disable level (logging.disable), the installed sys.excepthook and
the configuration last activated by logging.config.dictConfig. -/
structure ModuleState where
  loggerInitialized : Bool
  loggingConfigTemplate : LoggingConfig
  disableLevel : Nat
  excepthook : Excepthook
  activeConfig : Option LoggingConfig
  deriving DecidableEq, Repr

/-- Environment of one setup_logging call: the strftime timestamp (minute
resolution, format "%Y-%m%d-%H%M") and whether os.makedirs or
logging.config.dictConfig raises. -/
structure Env where
  timestamp : String
  makedirsFails : Bool
  dictConfigFails : Bool
  deriving DecidableEq, Repr

/-- The arguments of setup_logging, with the source's default values. -/
structure SetupArgs where
  dataset : String
  model : String
  no_log : Bool := false
  log_dir : String := "./log"
  console_log_level : Nat := INFO
  file_log_level : Nat := INFO
  deriving DecidableEq, Repr

/-- Observable side effects of setup_logging, in program order. -/
inductive Effect where
  | warning (msg : String)
  | disable (level : Nat)
  | makedirs (path : String) (existOk : Bool)
  | dictConfig (cfg : LoggingConfig)
  | installRichTracebacks (showLocals : Bool)
  | setExcepthook
  | logInfo (msg : String)
  | printStderr (msg : String)
  | printTraceback
  deriving DecidableEq, Repr

/-- Outcome of running a piece of Python code: a normal return value, or a
raised exception carrying its message. -/
inductive PyResult (α : Type) where
  | ok (val : α)
  | exn (msg : String)
  deriving DecidableEq, Repr

/-- The body of the try block of setup_logging: deep-copy the template,
build the timestamped subdirectory path, create it (exist_ok tolerates
pre-existence), point the file handler at result.log inside it, set the
two handler levels, activate the configuration, install rich tracebacks
and the excepthook, set the guard flag, log the confirmation and return
the subdirectory.  A raise at one of the two fallible operations is the
PyResult.exn result, carrying the state and effects reached so far. -/
def setup_logging_try (env : Env) (σ : ModuleState) (a : SetupArgs) :
    ModuleState × List Effect × PyResult (Option String) :=
  let log_subdir := joinPath (joinPath (joinPath a.log_dir a.dataset) a.model) env.timestamp
  if env.makedirsFails then
    (σ, [], PyResult.exn "os.makedirs failed")
  else
    let log_filename := joinPath log_subdir "result.log"
    let config : LoggingConfig :=
      { σ.loggingConfigTemplate with
        fileFilename := log_filename,
        consoleLevel := getLevelName a.console_log_level,
        fileLevel := getLevelName a.file_log_level }
    if env.dictConfigFails then
      (σ, [Effect.makedirs log_subdir true], PyResult.exn "logging.config.dictConfig failed")
    else
      ({ σ with
          activeConfig := some config,
          excepthook := Excepthook.handleException,
          loggerInitialized := true },
        [Effect.makedirs log_subdir true,
         Effect.dictConfig config,
         Effect.installRichTracebacks true,
         Effect.setExcepthook,
         Effect.logInfo ("Logger initialized. Log file at: " ++ log_filename)],
        PyResult.ok (some log_subdir))

/-- setup_logging of logger.py.  Already initialized: warn and return None.
Suppression (no_log): raise the global disable level above CRITICAL and
return None.  Otherwise run the try block; any exception it raises is
caught, printed to stderr with a traceback, and None is returned. -/
def setup_logging (env : Env) (σ : ModuleState) (a : SetupArgs) :
    ModuleState × List Effect × PyResult (Option String) :=
  if σ.loggerInitialized then
    (σ, [Effect.warning "Logger has already been initialized."], PyResult.ok none)
  else if a.no_log then
    ({ σ with disableLevel := CRITICAL + 1 },
      [Effect.disable (CRITICAL + 1)], PyResult.ok none)
  else
    let r := setup_logging_try env σ a
    match r.2.2 with
    | PyResult.ok v => (r.1, r.2.1, PyResult.ok v)
    | PyResult.exn e =>
      (r.1,
        r.2.1 ++ [Effect.printStderr ("Failed to initialize logger: " ++ e),
          Effect.printTraceback],
        PyResult.ok none)

/-- Model of the logging framework's global disable check: a record at
severity lvl is suppressed exactly when lvl is at most the disable level
set by logging.disable. -/
def recordSuppressed (σ : ModuleState) (lvl : Nat) : Bool :=
  decide (lvl ≤ σ.disableLevel)

/-- The dynamic type of an uncaught exception, as far as handle_exception
inspects it: whether it is a subclass of KeyboardInterrupt. -/
structure ExcType where
  isKeyboardInterruptSubclass : Bool
  deriving DecidableEq, Repr

/-- Observable effects of the exception hook. -/
inductive ExcEffect where
  | defaultExcepthook
  | logCritical (msg : String) (withExcInfo : Bool)
  | printStderr (msg : String)
  deriving DecidableEq, Repr

/-- handle_exception of logger.py: KeyboardInterrupt goes to the default
hook unchanged; otherwise log at critical severity with the traceback if
initialized, else print a notice to stderr and call the default hook. -/
def handle_exception (σ : ModuleState) (exc_type : ExcType) : List ExcEffect :=
  if exc_type.isKeyboardInterruptSubclass then
    [ExcEffect.defaultExcepthook]
  else if σ.loggerInitialized then
    [ExcEffect.logCritical "Unhandled exception occurred:" true]
  else
    [ExcEffect.printStderr "Unhandled exception occurred (logger not initialized):",
     ExcEffect.defaultExcepthook]

/-- A logging record, as far as the filter touches it: the raw message and
its interpolation arguments. -/
structure LogRecord where
  msg : String
  args : List String
  deriving DecidableEq, Repr

/-- Model of Python percent formatting restricted to the one directive the
record messages use: each occurrence of the directive for a string value
is replaced by the next argument in order. -/
def percentFormatAux : List Char → List String → List Char
  | [], _ => []
  | '%' :: 's' :: rest, arg :: args => arg.data ++ percentFormatAux rest args
  | c :: rest, args => c :: percentFormatAux rest args

/-- Model of LogRecord.getMessage: the raw message when there are no
arguments, otherwise the message percent-formatted with them. -/
def getMessage (r : LogRecord) : String :=
  if r.args.isEmpty then r.msg else String.mk (percentFormatAux r.msg.data r.args)

/-- Chars up to and including the first closing bracket, dropped: none
when no closing bracket follows. -/
def findClose : List Char → Option (List Char)
  | [] => none
  | ']' :: rest => some rest
  | _ :: rest => findClose rest

/-- Model of rich.text.Text.from_markup(...).plain on the char list, with
fuel (the input length suffices, each step consuming at least one char):
a bracketed markup tag is dropped whole, an unmatched opening bracket is
kept literally. -/
def stripTagsAux : Nat → List Char → List Char
  | 0, l => l
  | _ + 1, [] => []
  | fuel + 1, '[' :: rest =>
    match findClose rest with
    | some after => stripTagsAux fuel after
    | none => '[' :: stripTagsAux fuel rest
  | fuel + 1, c :: rest => c :: stripTagsAux fuel rest

/-- Model of rich.text.Text.from_markup(s).plain: s with console markup
tags removed. -/
def stripMarkup (s : String) : String :=
  String.mk (stripTagsAux s.data.length s.data)

/-- RemoveRichMarkupFilter.filter of logger.py: rewrite the record's msg to
the markup-stripped rendered message, clear its args, and return True
(the record is never dropped). -/
def RemoveRichMarkupFilter.filter (record : LogRecord) : LogRecord × Bool :=
  ({ msg := stripMarkup (getMessage record), args := [] }, true)

/-- A Python value as far as log_training_details_to_tensorboard inspects
it: a torch tensor (dimension count and, for the zero-dimensional case,
its item), a plain float or int (numeric payload abstracted to Int), a
string, or any other object. -/
inductive PyValue where
  | tensor (dim : Nat) (item : Int)
  | pyfloat (x : Int)
  | pyint (n : Int)
  | pystr (s : String)
  | pyother
  deriving DecidableEq, Repr

/-- Calls made on the SummaryWriter: a scalar sample or a histogram sample
(the histogram carries the tensor's dimension count; its numeric content
is abstracted). -/
inductive TBEffect where
  | addScalar (tag : String) (value : Int) (step : Int)
  | addHistogram (tag : String) (tensorDim : Nat) (step : Int)
  deriving DecidableEq, Repr

/-- log_training_details_to_tensorboard of logger.py: for each entry of
the mapping in order, a zero-dimensional tensor becomes one add_scalar
call on its item, a tensor of higher dimension one add_histogram call, a
plain float or int one add_scalar call, and anything else nothing. -/
def log_training_details_to_tensorboard (step : Int) :
    List (String × PyValue) → List TBEffect
  | [] => []
  | (key, value) :: rest =>
    (match value with
     | PyValue.tensor dim item =>
       if dim = 0 then [TBEffect.addScalar key item step]
       else [TBEffect.addHistogram key dim step]
     | PyValue.pyfloat x => [TBEffect.addScalar key x step]
     | PyValue.pyint n => [TBEffect.addScalar key n step]
     | PyValue.pystr _ => []
     | PyValue.pyother => []) ++ log_training_details_to_tensorboard step rest

/-- The module state at process start: guard flag down, pristine template,
no global disable, default excepthook, no configuration activated. -/
def initialState : ModuleState :=
  { loggerInitialized := false,
    loggingConfigTemplate := LOGGING_CONFIG,
    disableLevel := 0,
    excepthook := Excepthook.defaultHook,
    activeConfig := none }

/-- A state in which the guard flag is already up. -/
def initializedState : ModuleState :=
  { initialState with loggerInitialized := true }

/-- An environment in which both fallible operations succeed. -/
def okEnv : Env :=
  { timestamp := "2026-1012-0930", makedirsFails := false, dictConfigFails := false }

/-- An environment in which os.makedirs raises. -/
def mkdirFailEnv : Env :=
  { okEnv with makedirsFails := true }

/-- The spec's example arguments: dataset "d", model "m", defaults. -/
def argsDM : SetupArgs :=
  { dataset := "d", model := "m" }

/-- The example arguments with suppression requested. -/
def argsDMQuiet : SetupArgs :=
  { argsDM with no_log := true }

/-- The timestamped log subdirectory a successful call computes:
log_dir/dataset/model/timestamp. -/
def successSubdir (a : SetupArgs) (env : Env) : String :=
  joinPath (joinPath (joinPath a.log_dir a.dataset) a.model) env.timestamp

/-- The configuration a successful call activates: the template with the
file handler pointed at result.log inside the subdirectory and the two
handler levels set to the names of the requested levels. -/
def successConfig (σ : ModuleState) (a : SetupArgs) (env : Env) : LoggingConfig :=
  { σ.loggingConfigTemplate with
    fileFilename := joinPath (successSubdir a env) "result.log",
    consoleLevel := getLevelName a.console_log_level,
    fileLevel := getLevelName a.file_log_level }

/-- Helper: the try block never writes the module-level template (the
deep copy is what gets mutated). -/
theorem setup_logging_try_template (env : Env) (σ : ModuleState) (a : SetupArgs) :
    (setup_logging_try env σ a).1.loggingConfigTemplate = σ.loggingConfigTemplate := by
  cases hm : env.makedirsFails <;> cases hd : env.dictConfigFails <;>
    simp [setup_logging_try, hm, hd]

/-- C1: when the process-wide initialized flag is already true,
setup_logging emits exactly one warning, returns None, and performs no
other effect: the state (including the flag, the excepthook and the
active configuration) is unchanged and the trace holds no makedirs,
dictConfig or hook installation. -/
theorem c1_second_call_warns_and_noops (env : Env) (σ : ModuleState) (a : SetupArgs)
    (h : σ.loggerInitialized = true) :
    setup_logging env σ a =
      (σ, [Effect.warning "Logger has already been initialized."], PyResult.ok none) := by
  simp [setup_logging, h]

/-- Witness for C1 at an already-initialized state. -/
theorem c1_witness :
    setup_logging okEnv initializedState argsDM =
      (initializedState, [Effect.warning "Logger has already been initialized."],
        PyResult.ok none) :=
  c1_second_call_warns_and_noops okEnv initializedState argsDM rfl

/-- C2: setup_logging never propagates an exception: on every input the
result is a normal return, and whenever the try block raises, the
exception is caught, printed to stderr together with a traceback, and
None is returned. -/
theorem c2_never_raises (env : Env) (σ : ModuleState) (a : SetupArgs) (e : String) :
    (∃ v, (setup_logging env σ a).2.2 = PyResult.ok v) ∧
    (σ.loggerInitialized = false → a.no_log = false →
      (setup_logging_try env σ a).2.2 = PyResult.exn e →
      setup_logging env σ a =
        ((setup_logging_try env σ a).1,
          (setup_logging_try env σ a).2.1 ++
            [Effect.printStderr ("Failed to initialize logger: " ++ e),
             Effect.printTraceback],
          PyResult.ok none)) := by
  constructor
  · cases hσ : σ.loggerInitialized with
    | true => exact ⟨none, by simp [setup_logging, hσ]⟩
    | false =>
      cases ha : a.no_log with
      | true => exact ⟨none, by simp [setup_logging, hσ, ha]⟩
      | false =>
        cases hr : (setup_logging_try env σ a).2.2 with
        | ok v => exact ⟨v, by simp [setup_logging, hσ, ha, hr]⟩
        | exn e2 => exact ⟨none, by simp [setup_logging, hσ, ha, hr]⟩
  · intro h1 h2 h3
    simp [setup_logging, h1, h2, h3]

/-- Witness for C2: a first call on which directory creation raises is
caught, reported on stderr with a traceback, and returns None. -/
theorem c2_witness :
    setup_logging mkdirFailEnv initialState argsDM =
      ((setup_logging_try mkdirFailEnv initialState argsDM).1,
        (setup_logging_try mkdirFailEnv initialState argsDM).2.1 ++
          [Effect.printStderr ("Failed to initialize logger: " ++ "os.makedirs failed"),
           Effect.printTraceback],
        PyResult.ok none) :=
  (c2_never_raises mkdirFailEnv initialState argsDM "os.makedirs failed").2 rfl rfl rfl

/-- C3: a first, non-suppressed, successful call creates (with exist_ok)
the directory log_dir/dataset/model/timestamp, activates the copied
configuration with the file sink at result.log inside that directory and
the requested console and file levels, installs the hooks, sets the
initialized flag, and returns the directory path. -/
theorem c3_first_success (env : Env) (σ : ModuleState) (a : SetupArgs)
    (h1 : σ.loggerInitialized = false) (h2 : a.no_log = false)
    (h3 : env.makedirsFails = false) (h4 : env.dictConfigFails = false) :
    setup_logging env σ a =
      ({ σ with
          activeConfig := some (successConfig σ a env),
          excepthook := Excepthook.handleException,
          loggerInitialized := true },
        [Effect.makedirs (successSubdir a env) true,
         Effect.dictConfig (successConfig σ a env),
         Effect.installRichTracebacks true,
         Effect.setExcepthook,
         Effect.logInfo ("Logger initialized. Log file at: " ++
           joinPath (successSubdir a env) "result.log")],
        PyResult.ok (some (successSubdir a env))) := by
  simp [setup_logging, setup_logging_try, successSubdir, successConfig, h1, h2, h3, h4]

/-- Witness for C3 at the spec's example dataset "d" and model "m". -/
theorem c3_witness :
    setup_logging okEnv initialState argsDM =
      ({ initialState with
          activeConfig := some (successConfig initialState argsDM okEnv),
          excepthook := Excepthook.handleException,
          loggerInitialized := true },
        [Effect.makedirs (successSubdir argsDM okEnv) true,
         Effect.dictConfig (successConfig initialState argsDM okEnv),
         Effect.installRichTracebacks true,
         Effect.setExcepthook,
         Effect.logInfo ("Logger initialized. Log file at: " ++
           joinPath (successSubdir argsDM okEnv) "result.log")],
        PyResult.ok (some (successSubdir argsDM okEnv))) :=
  c3_first_success okEnv initialState argsDM rfl rfl rfl rfl

/-- C4: a first call with suppression requested raises the global disable
level to CRITICAL + 1 and returns None, with no filesystem write and no
directory creation; afterwards every record at severity up to
CRITICAL + 1 (in particular all standard severities, fatal included) is
suppressed. -/
theorem c4_suppression (env : Env) (σ : ModuleState) (a : SetupArgs)
    (h1 : σ.loggerInitialized = false) (h2 : a.no_log = true) :
    setup_logging env σ a =
      ({ σ with disableLevel := CRITICAL + 1 },
        [Effect.disable (CRITICAL + 1)], PyResult.ok none) ∧
    ∀ lvl, lvl ≤ CRITICAL + 1 →
      recordSuppressed (setup_logging env σ a).1 lvl = true := by
  have he : setup_logging env σ a =
      ({ σ with disableLevel := CRITICAL + 1 },
        [Effect.disable (CRITICAL + 1)], PyResult.ok none) := by
    simp [setup_logging, h1, h2]
  refine ⟨he, ?_⟩
  intro lvl hl
  rw [he]
  simpa [recordSuppressed] using hl

/-- Witness for C4: a suppressed first call, with the CRITICAL severity
itself suppressed afterwards. -/
theorem c4_witness :
    setup_logging okEnv initialState argsDMQuiet =
      ({ initialState with disableLevel := CRITICAL + 1 },
        [Effect.disable (CRITICAL + 1)], PyResult.ok none) ∧
    recordSuppressed (setup_logging okEnv initialState argsDMQuiet).1 CRITICAL = true :=
  ⟨(c4_suppression okEnv initialState argsDMQuiet rfl rfl).1,
   (c4_suppression okEnv initialState argsDMQuiet rfl rfl).2 CRITICAL (by decide)⟩

/-- C5: the forwarder handles each entry independently: a
zero-dimensional tensor contributes exactly one scalar sample at step, a
tensor of positive dimension exactly one histogram sample, a plain float
or int exactly one scalar sample, and a string or any other value
nothing, the rest of the mapping being processed unchanged. -/
theorem c5_forwarder_per_entry (step : Int) (key : String) (item x n : Int)
    (d : Nat) (s : String) (rest : List (String × PyValue)) :
    log_training_details_to_tensorboard step ((key, PyValue.tensor 0 item) :: rest) =
      TBEffect.addScalar key item step :: log_training_details_to_tensorboard step rest ∧
    log_training_details_to_tensorboard step ((key, PyValue.tensor (d + 1) x) :: rest) =
      TBEffect.addHistogram key (d + 1) step :: log_training_details_to_tensorboard step rest ∧
    log_training_details_to_tensorboard step ((key, PyValue.pyfloat x) :: rest) =
      TBEffect.addScalar key x step :: log_training_details_to_tensorboard step rest ∧
    log_training_details_to_tensorboard step ((key, PyValue.pyint n) :: rest) =
      TBEffect.addScalar key n step :: log_training_details_to_tensorboard step rest ∧
    log_training_details_to_tensorboard step ((key, PyValue.pystr s) :: rest) =
      log_training_details_to_tensorboard step rest ∧
    log_training_details_to_tensorboard step ((key, PyValue.pyother) :: rest) =
      log_training_details_to_tensorboard step rest := by
  refine ⟨?_, ?_, ?_, ?_, ?_, ?_⟩ <;> simp [log_training_details_to_tensorboard]

/-- C6: on a KeyboardInterrupt subclass the hook calls the default
handler and nothing else, whatever the initialization state: in
particular no critical record is produced. -/
theorem c6_keyboard_interrupt_passthrough (σ : ModuleState) (et : ExcType)
    (h : et.isKeyboardInterruptSubclass = true) :
    handle_exception σ et = [ExcEffect.defaultExcepthook] := by
  simp [handle_exception, h]

/-- Witness for C6 at an uninitialized state. -/
theorem c6_witness :
    handle_exception initialState { isKeyboardInterruptSubclass := true } =
      [ExcEffect.defaultExcepthook] :=
  c6_keyboard_interrupt_passthrough initialState { isKeyboardInterruptSubclass := true } rfl

/-- C7: on a non-KeyboardInterrupt exception the hook logs one critical
record with the traceback and does not call the default handler when
initialized, and prints a stderr notice then calls the default handler
when not initialized. -/
theorem c7_non_interrupt_dispatch (σ : ModuleState) (et : ExcType)
    (h : et.isKeyboardInterruptSubclass = false) :
    (σ.loggerInitialized = true →
      handle_exception σ et =
        [ExcEffect.logCritical "Unhandled exception occurred:" true]) ∧
    (σ.loggerInitialized = false →
      handle_exception σ et =
        [ExcEffect.printStderr "Unhandled exception occurred (logger not initialized):",
         ExcEffect.defaultExcepthook]) := by
  constructor <;> intro hi <;> simp [handle_exception, h, hi]

/-- Witness for C7 at an initialized state. -/
theorem c7_witness :
    handle_exception initializedState { isKeyboardInterruptSubclass := false } =
      [ExcEffect.logCritical "Unhandled exception occurred:" true] :=
  (c7_non_interrupt_dispatch initializedState { isKeyboardInterruptSubclass := false } rfl).1 rfl

/-- C8: the file sink's markup filter never drops a record, rewrites the
message to its markup-stripped rendering, and on the spec's example turns
the marked-up message into plain x. -/
theorem c8_markup_filter (record : LogRecord) :
    (RemoveRichMarkupFilter.filter record).2 = true ∧
    (RemoveRichMarkupFilter.filter record).1.msg = stripMarkup (getMessage record) ∧
    stripMarkup "[bold]x[/bold]" = "x" :=
  ⟨rfl, rfl, by decide⟩

/-- C9: setup_logging leaves the module-level configuration template
unchanged on every path (warning, suppression, success and failure), so a
later call observes the pristine template. -/
theorem c9_template_untouched (env : Env) (σ : ModuleState) (a : SetupArgs) :
    (setup_logging env σ a).1.loggingConfigTemplate = σ.loggingConfigTemplate := by
  cases hσ : σ.loggerInitialized with
  | true => simp [setup_logging, hσ]
  | false =>
    cases ha : a.no_log with
    | true => simp [setup_logging, hσ, ha]
    | false =>
      cases hr : (setup_logging_try env σ a).2.2 with
      | ok v => simp [setup_logging, hσ, ha, hr, setup_logging_try_template]
      | exn e => simp [setup_logging, hσ, ha, hr, setup_logging_try_template]

/-- C10: a suppressed first call leaves the initialized flag false, so a
subsequent non-suppressed call does not emit the already-initialized
warning and performs full initialization, returning the directory path
and raising the flag. -/
theorem c10_suppression_keeps_flag_down (env env2 : Env) (σ : ModuleState)
    (a a2 : SetupArgs)
    (h1 : σ.loggerInitialized = false) (h2 : a.no_log = true)
    (h3 : a2.no_log = false) (h4 : env2.makedirsFails = false)
    (h5 : env2.dictConfigFails = false) :
    (setup_logging env σ a).1.loggerInitialized = false ∧
    Effect.warning "Logger has already been initialized." ∉
      (setup_logging env2 (setup_logging env σ a).1 a2).2.1 ∧
    (setup_logging env2 (setup_logging env σ a).1 a2).2.2 =
      PyResult.ok (some (successSubdir a2 env2)) ∧
    (setup_logging env2 (setup_logging env σ a).1 a2).1.loggerInitialized = true := by
  have hfirst : setup_logging env σ a =
      ({ σ with disableLevel := CRITICAL + 1 },
        [Effect.disable (CRITICAL + 1)], PyResult.ok none) := by
    simp [setup_logging, h1, h2]
  rw [hfirst]
  refine ⟨h1, ?_, ?_, ?_⟩ <;>
    simp [setup_logging, setup_logging_try, successSubdir, h1, h3, h4, h5]

/-- Witness for C10: suppressed call then full initialization. -/
theorem c10_witness :
    (setup_logging okEnv initialState argsDMQuiet).1.loggerInitialized = false ∧
    Effect.warning "Logger has already been initialized." ∉
      (setup_logging okEnv (setup_logging okEnv initialState argsDMQuiet).1 argsDM).2.1 ∧
    (setup_logging okEnv (setup_logging okEnv initialState argsDMQuiet).1 argsDM).2.2 =
      PyResult.ok (some (successSubdir argsDM okEnv)) ∧
    (setup_logging okEnv (setup_logging okEnv initialState argsDMQuiet).1 argsDM).1.loggerInitialized
      = true :=
  c10_suppression_keeps_flag_down okEnv okEnv initialState argsDMQuiet argsDM
    rfl rfl rfl rfl rfl

end ColdRecLogger
